import Mathlib

/-!
Verification of `src/index.ts` of the agent-demo repository: an Express server
with a `/tools` handler that runs a two-node agent graph (model step, tools
step) and a video-creation tool built on a render-submission request followed
by a status-polling loop.

Modelling conventions.
* Machine-level JS values are embedded as plain Lean data: HTTP responses
  become records carrying the fields the code reads (`ok`, `status`, the
  parsed JSON fields); `fetch` is replaced by oracles: the submission response
  is a parameter, and the sequence of polling responses is a function
  `Nat → PollResponse` giving the response to the n-th poll.
* The unbounded `while (true)` polling loop is embedded with explicit fuel,
  returning `none` when the fuel runs out before the loop exits; thus
  "the loop never terminates" is rendered as "for every fuel the result is
  `none`", and "the loop terminates" as "for some fuel the result is `some`".
* Thrown `Error`s become `Except.error` carrying the exact message string the
  code interpolates.
-/

/-- The fixed objective string from `src/index.ts` line 29. -/
def objective : String :=
  "Create a video about the winner of the most recent champions league"

/-- The response to the `POST /renders` submission request, carrying the
fields `createVideo` reads: `res.ok`, `res.status`, the error body text
(`res.text()`), and the parsed `resData.id`. -/
structure SubmitResponse where
  ok : Bool
  httpStatus : Nat
  bodyText : String
  id : String

/-- The response to one `GET /api/renders/:id` poll, carrying the fields the
loop reads: `response.ok`, the HTTP `response.status`, the error body text
(`response.text()`), and the parsed JSON fields `data.status`, `data.url`,
`data.errorMessage`. -/
structure PollResponse where
  ok : Bool
  httpStatus : Nat
  bodyText : String
  status : String
  url : String
  errorMessage : String

/-- The message of the `Error` thrown when the submission response is not ok
(`src/index.ts` lines 204-209). -/
def submitErrorMsg (r : SubmitResponse) : String :=
  "HTTP Error while retrieving video from holo video server " ++
    toString r.httpStatus ++ ": " ++ r.bodyText

/-- The message of the `Error` thrown when a polling response is not ok
(`src/index.ts` lines 227-232). -/
def pollErrorMsg (r : PollResponse) : String :=
  "HTTP error while polling video render status! status: " ++
    toString r.httpStatus ++ " data: " ++ r.bodyText

/-- The message of the `Error` thrown when a polled job status is "failed"
(`src/index.ts` lines 241-245). -/
def failedMsg (r : PollResponse) : String :=
  "Failed to render video! Reason: " ++ r.errorMessage

/-- The artifact part of the tool's `content_and_artifact` return value
(`src/index.ts` lines 250-255). -/
structure VideoArtifact where
  videoId : String
deriving DecidableEq

/-- The `while (true)` polling loop of `createVideo` (`src/index.ts` lines
216-248), over the oracle `polls` of successive poll responses, with explicit
fuel. Each iteration reads the next response: a non-ok response throws the
HTTP-polling error, status "completed" exits with `data.url`, status "failed"
throws the failure error, and anything else sleeps one second and retries
(the recursive call on the shifted oracle). `none` means the fuel was
exhausted with the loop still running. -/
def pollLoop (polls : Nat → PollResponse) : Nat → Option (Except String String)
  | 0 => none
  | fuel + 1 =>
    let r := polls 0
    if r.ok = false then
      some (Except.error (pollErrorMsg r))
    else if r.status = "completed" then
      some (Except.ok r.url)
    else if r.status = "failed" then
      some (Except.error (failedMsg r))
    else
      pollLoop (fun n => polls (n + 1)) fuel

/-- The `createVideo` tool body (`src/index.ts` lines 166-263): submit the
render request; if the submission response is not ok, throw; otherwise run the
polling loop, propagating its error or wrapping the completed url in the
tool's content string and artifact. The `script` input only enters the
submitted payload (`renderPayload` below), not the result. -/
def createVideo (script : String) (submit : SubmitResponse)
    (polls : Nat → PollResponse) (fuel : Nat) :
    Option (Except String (String × VideoArtifact)) :=
  if submit.ok = false then
    some (Except.error (submitErrorMsg submit))
  else
    match pollLoop polls fuel with
    | none => none
    | some (Except.error e) => some (Except.error e)
    | some (Except.ok url) =>
        some (Except.ok ("url for the video is! " ++ url, ⟨"123"⟩))

/-- A poll response that neither exits nor throws: HTTP-ok and a job status
other than "completed" and "failed" (e.g. "pending"). -/
def pendingAt (polls : Nat → PollResponse) (j : Nat) : Prop :=
  (polls j).ok = true ∧ (polls j).status ≠ "completed" ∧
    (polls j).status ≠ "failed"

instance (polls : Nat → PollResponse) (j : Nat) :
    Decidable (pendingAt polls j) := by
  unfold pendingAt
  infer_instance

/-- Substring containment on strings, used to state "the message contains the
service-provided text". -/
def strContains (s sub : String) : Prop :=
  ∃ pre suf : String, s = pre ++ sub ++ suf

theorem strContains_mem (s sub : String) (h : strContains s sub) :
    ∀ c ∈ sub.data, c ∈ s.data := by
  obtain ⟨pre, suf, rfl⟩ := h
  intro c hc
  simp [String.data_append]
  tauto

theorem pollLoop_shift (polls : Nat → PollResponse) (fuel : Nat)
    (h : pendingAt polls 0) :
    pollLoop polls (fuel + 1) = pollLoop (fun n => polls (n + 1)) fuel := by
  obtain ⟨hok, hnc, hnf⟩ := h
  simp [pollLoop, hok, hnc, hnf]

theorem pollLoop_completed (k : Nat) : ∀ (polls : Nat → PollResponse),
    (∀ j < k, pendingAt polls j) → (polls k).ok = true →
    (polls k).status = "completed" →
    pollLoop polls (k + 1) = some (Except.ok ((polls k).url)) := by
  induction k with
  | zero =>
    intro polls _ hok hc
    simp [pollLoop, hok, hc]
  | succ k ih =>
    intro polls hpend hok hc
    rw [pollLoop_shift polls (k + 1) (hpend 0 (Nat.succ_pos _))]
    exact ih (fun n => polls (n + 1))
      (fun j hj => hpend (j + 1) (Nat.succ_lt_succ hj)) hok hc

theorem pollLoop_failed (k : Nat) : ∀ (polls : Nat → PollResponse),
    (∀ j < k, pendingAt polls j) → (polls k).ok = true →
    (polls k).status = "failed" →
    pollLoop polls (k + 1) = some (Except.error (failedMsg (polls k))) := by
  induction k with
  | zero =>
    intro polls _ hok hf
    by_cases hc : (polls 0).status = "completed"
    · rw [hc] at hf; exact absurd hf (by decide)
    · simp [pollLoop, hok, hc, hf]
  | succ k ih =>
    intro polls hpend hok hf
    rw [pollLoop_shift polls (k + 1) (hpend 0 (Nat.succ_pos _))]
    exact ih (fun n => polls (n + 1))
      (fun j hj => hpend (j + 1) (Nat.succ_lt_succ hj)) hok hf

theorem pollLoop_http_error (k : Nat) : ∀ (polls : Nat → PollResponse),
    (∀ j < k, pendingAt polls j) → (polls k).ok = false →
    pollLoop polls (k + 1) = some (Except.error (pollErrorMsg (polls k))) := by
  induction k with
  | zero =>
    intro polls _ hbad
    simp [pollLoop, hbad]
  | succ k ih =>
    intro polls hpend hbad
    rw [pollLoop_shift polls (k + 1) (hpend 0 (Nat.succ_pos _))]
    exact ih (fun n => polls (n + 1))
      (fun j hj => hpend (j + 1) (Nat.succ_lt_succ hj)) hbad

theorem pollLoop_pending_none (fuel : Nat) : ∀ (polls : Nat → PollResponse),
    (∀ j, pendingAt polls j) → pollLoop polls fuel = none := by
  induction fuel with
  | zero => intro polls _; rfl
  | succ fuel ih =>
    intro polls hpend
    rw [pollLoop_shift polls fuel (hpend 0)]
    exact ih (fun n => polls (n + 1)) (fun j => hpend (j + 1))

/-- The first-deciding-poll characterization of a polling-loop error: all
earlier responses are pending-like, and the deciding response either fails the
HTTP check (yielding the HTTP-polling message) or carries job status "failed"
(yielding the failure message). -/
def decidesError (polls : Nat → PollResponse) (k : Nat) (msg : String) : Prop :=
  (∀ j < k, pendingAt polls j) ∧
    (((polls k).ok = false ∧ msg = pollErrorMsg (polls k)) ∨
      ((polls k).ok = true ∧ (polls k).status = "failed" ∧
        msg = failedMsg (polls k)))

theorem pollLoop_error_inv (fuel : Nat) : ∀ (polls : Nat → PollResponse)
    (msg : String), pollLoop polls fuel = some (Except.error msg) →
    ∃ k, decidesError polls k msg := by
  induction fuel with
  | zero => intro polls msg h; exact absurd h (by simp [pollLoop])
  | succ fuel ih =>
    intro polls msg h
    by_cases hok : (polls 0).ok = false
    · refine ⟨0, fun j hj => absurd hj (Nat.not_lt_zero j), Or.inl ⟨hok, ?_⟩⟩
      simp [pollLoop, hok] at h
      exact h.symm
    · rw [Bool.not_eq_false] at hok
      by_cases hc : (polls 0).status = "completed"
      · exact absurd h (by simp [pollLoop, hok, hc])
      · by_cases hf : (polls 0).status = "failed"
        · refine ⟨0, fun j hj => absurd hj (Nat.not_lt_zero j),
            Or.inr ⟨hok, hf, ?_⟩⟩
          simp [pollLoop, hok, hc, hf] at h
          exact h.symm
        · rw [pollLoop_shift polls fuel ⟨hok, hc, hf⟩] at h
          obtain ⟨k, hpend, hdec⟩ := ih (fun n => polls (n + 1)) msg h
          refine ⟨k + 1, ?_, hdec⟩
          intro j hj
          match j, hj with
          | 0, _ => exact ⟨hok, hc, hf⟩
          | j + 1, hj => exact hpend j (Nat.lt_of_succ_lt_succ hj)

theorem pollLoop_ok_inv (fuel : Nat) : ∀ (polls : Nat → PollResponse)
    (u : String), pollLoop polls fuel = some (Except.ok u) →
    ∃ k, (∀ j < k, pendingAt polls j) ∧ (polls k).ok = true ∧
      (polls k).status = "completed" ∧ u = (polls k).url := by
  induction fuel with
  | zero => intro polls u h; exact absurd h (by simp [pollLoop])
  | succ fuel ih =>
    intro polls u h
    by_cases hok : (polls 0).ok = false
    · exact absurd h (by simp [pollLoop, hok])
    · rw [Bool.not_eq_false] at hok
      by_cases hc : (polls 0).status = "completed"
      · refine ⟨0, fun j hj => absurd hj (Nat.not_lt_zero j), hok, hc, ?_⟩
        simp [pollLoop, hok, hc] at h
        exact h.symm
      · by_cases hf : (polls 0).status = "failed"
        · exact absurd h (by simp [pollLoop, hok, hc, hf])
        · rw [pollLoop_shift polls fuel ⟨hok, hc, hf⟩] at h
          obtain ⟨k, hpend, hres⟩ := ih (fun n => polls (n + 1)) u h
          refine ⟨k + 1, ?_, hres⟩
          intro j hj
          match j, hj with
          | 0, _ => exact ⟨hok, hc, hf⟩
          | j + 1, hj => exact hpend j (Nat.lt_of_succ_lt_succ hj)

/-- The image/voice background configuration of the single scene
(`src/index.ts` lines 175-178). -/
structure Background where
  type : String
  source : String
deriving DecidableEq

/-- The avatar model configuration sub-object (`src/index.ts` lines 181-186);
the JSON numbers are embedded as exact rationals and the JSON `null` for `x`
as `none`. -/
structure ModelConfig where
  id : String
  scale : Rat
  x : Option Int
  y : Int
deriving DecidableEq

/-- One element of the `scenes` array (`src/index.ts` lines 172-188). -/
structure Scene where
  text : String
  background : Background
  voiceId : String
  includeOutro : Bool
  modelConfig : ModelConfig
deriving DecidableEq

/-- The body of the `POST /renders` request (`src/index.ts` lines 168-189). -/
structure RenderPayload where
  aspectRatio : String
  withCaption : Bool
  brainrot : Bool
  scenes : List Scene
deriving DecidableEq

/-- The `renderPayload` object `createVideo` submits (`src/index.ts` lines
168-189), with the environment base url
`process.env.HOLOWORLD_VIDEO_SERVER_BASE_URL` as a parameter. -/
def renderPayload (baseUrl script : String) : RenderPayload :=
  { aspectRatio := "1/1"
    withCaption := false
    brainrot := false
    scenes := [
      { text := script
        background := { type := "image", source := baseUrl ++ "/images/neon.png" }
        voiceId := "GVG9vYrd7AzWuz0Aw0ZJ"
        includeOutro := true
        modelConfig := { id := "ava", scale := 0.2, x := none, y := -75 } }] }

/-- Names of the tools the `/tools` handler declares with `tool(...)`
(`src/index.ts` lines 118-263): internet search, tweet posting, video
creation. -/
inductive AbilityName where
  | search_internet
  | send_tweet
  | create_video
deriving DecidableEq

/-- The three `tool(...)` declarations of the handler, in source order
(`searchInternet` line 118, `sendTweet` line 143, `createVideo` line 166). -/
def declaredAbilities : List AbilityName :=
  [AbilityName.search_internet, AbilityName.send_tweet, AbilityName.create_video]

/-- `const TOOLS = [searchInternet, createVideo]` (`src/index.ts` line 265):
the list bound to the chat model in `callModel` via `chatModel.bindTools(TOOLS)`
and executed by the tools node via `new ToolNode(TOOLS)`. -/
def TOOLS : List AbilityName :=
  [AbilityName.search_internet, AbilityName.create_video]

/-- One tool call requested by an assistant message (an element of an
`AIMessage`'s `tool_calls` array). -/
structure ToolCall where
  name : String
  args : String

/-- A chat message as the graph state holds it: a role-tagged content string,
and, for assistant messages that request tool invocations, a `tool_calls`
array. `tool_calls = none` embeds a message without that field (a user, system
or tool message, or an assistant message with no calls); the JS code only ever
reads the field through optional chaining. -/
structure Message where
  role : String
  content : String
  tool_calls : Option (List ToolCall)

/-- The system prompt prepended to the history on every model call
(`src/index.ts` lines 59-70). -/
def SYSTEM_PROMPT : String :=
  "You are a helpful AI assistant designed to provide clear, direct responses to user queries.\n\nKey Instructions:\n1. Provide responses directly without meta-commentary, explanations of your process, or unnecessary acknowledgments\n2. Do not preface responses with phrases like \"Here's your response\" or \"I'll help you with that\"\n3. Do not conclude responses with questions about satisfaction or offers for further assistance\n4. Stay focused on the specific task or query presented\n5. If you need clarification, ask concise, specific questions\n\nToday's date: 17th of December 2024\n\nRemember: Your role is to provide accurate, helpful responses in the most direct manner possible. Do not add pleasantries, meta-commentary, or explanations about your own behavior."

/-- The system message `callModel` places in front of the state's messages
(`src/index.ts` lines 281-287). -/
def systemMessage : Message :=
  { role := "system", content := SYSTEM_PROMPT, tool_calls := none }

/-- The `callModel` node (`src/index.ts` lines 272-291): invoke the
tool-bound chat model — abstracted as the oracle `model` — on the system
prompt followed by the state's messages, and return the state's messages with
the response appended (`\x7b messages: [...state.messages, response] \x7d`). -/
def callModel (model : List Message → Message) (msgs : List Message) :
    List Message :=
  msgs ++ [model (systemMessage :: msgs)]

/-- The result of the JS optional chain
`(lastMessage as AIMessage)?.tool_calls?.length` collapsed to a `Nat`: `0`
both when a stage of the chain is `undefined` and when the array is empty —
the two cases JS treats identically (falsy) in the routing condition. -/
def lastToolCallsLen (msgs : List Message) : Nat :=
  match msgs.getLast? with
  | none => 0
  | some m =>
    match m.tool_calls with
    | none => 0
    | some tc => tc.length

/-- The langgraph terminal branch constant `END`. -/
def END : String := "__end__"

/-- The routing function after the model step (`src/index.ts` lines 293-305).
The JS condition is `lastMessage?.tool_calls?.length || 0 > 0`; since `>`
binds tighter than `||` this is `(lastMessage?.tool_calls?.length) || (0 > 0)`,
and the `if` tests the truthiness of that JS value: true exactly when the
length is defined and nonzero, since `0 > 0` is false. -/
def routeModelOutput (msgs : List Message) : String :=
  if lastToolCallsLen msgs ≠ 0 ∨ 0 > 0 then "tools" else END

/-- The `callTool` node (`src/index.ts` lines 307-313): run the tool node —
abstracted as the oracle `toolNode`, standing for
`new ToolNode(TOOLS).invoke(state)`, which returns the tool-result messages —
and return the state's messages with those results appended. -/
def callTool (toolNode : List Message → List Message) (msgs : List Message) :
    List Message :=
  msgs ++ toolNode msgs

/-- The compiled graph's execution (`src/index.ts` lines 315-323, 336):
`START → callModel`, then the conditional edge routes to `tools` (which loops
back to `callModel`) or to `END`. `fuel` bounds the number of model steps;
`none` means the loop was still running when the fuel ran out. -/
def runGraph (model : List Message → Message)
    (toolNode : List Message → List Message) :
    Nat → List Message → Option (List Message)
  | 0, _ => none
  | fuel + 1, msgs =>
    let m1 := callModel model msgs
    if routeModelOutput m1 = "tools" then
      runGraph model toolNode fuel (callTool toolNode m1)
    else
      some m1

/-- The messages the graph run generates beyond its starting list: each round
contributes the model response, then — when routing continues to the tools
node — the tool-result messages, in order. -/
def genHistory (model : List Message → Message)
    (toolNode : List Message → List Message) :
    Nat → List Message → Option (List Message)
  | 0, _ => none
  | fuel + 1, msgs =>
    let m1 := callModel model msgs
    if routeModelOutput m1 = "tools" then
      match genHistory model toolNode fuel (callTool toolNode m1) with
      | none => none
      | some rest => some ([model (systemMessage :: msgs)] ++ toolNode m1 ++ rest)
    else
      some [model (systemMessage :: msgs)]

/-- The initial state of the `/tools` handler's graph invocation
(`src/index.ts` lines 325-336): a single user message whose content is the
objective. -/
def initialMessages : List Message :=
  [{ role := "user", content := objective, tool_calls := none }]

theorem runGraph_genHistory (model : List Message → Message)
    (toolNode : List Message → List Message) (fuel : Nat) :
    ∀ (msgs final : List Message),
    runGraph model toolNode fuel msgs = some final →
    ∃ gen, genHistory model toolNode fuel msgs = some gen ∧
      final = msgs ++ gen := by
  induction fuel with
  | zero => intro msgs final h; exact absurd h (by simp [runGraph])
  | succ fuel ih =>
    intro msgs final h
    by_cases hroute : routeModelOutput (callModel model msgs) = "tools"
    · rw [runGraph, if_pos hroute] at h
      obtain ⟨rest, hrest, hfin⟩ :=
        ih (callTool toolNode (callModel model msgs)) final h
      refine ⟨[model (systemMessage :: msgs)] ++
        toolNode (callModel model msgs) ++ rest, ?_, ?_⟩
      · rw [genHistory, if_pos hroute, hrest]
      · rw [hfin, callTool, callModel]
        simp
    · rw [runGraph, if_neg hroute] at h
      refine ⟨[model (systemMessage :: msgs)], ?_, ?_⟩
      · rw [genHistory, if_neg hroute]
      · rw [← Option.some_inj.mp h, callModel]

/-- A successful render submission response. -/
def goodSubmit : SubmitResponse :=
  { ok := true, httpStatus := 200, bodyText := "", id := "render-1" }

/-- A failed render submission response. -/
def badSubmit : SubmitResponse :=
  { ok := false, httpStatus := 500, bodyText := "server exploded", id := "" }

/-- An HTTP-ok poll response with job status still "pending". -/
def pendingResponse : PollResponse :=
  { ok := true, httpStatus := 200, bodyText := "", status := "pending",
    url := "", errorMessage := "" }

/-- An HTTP-ok poll response with job status "completed" and a result url. -/
def completedResponse : PollResponse :=
  { ok := true, httpStatus := 200, bodyText := "", status := "completed",
    url := "https://videos.example/out.mp4", errorMessage := "" }

/-- An HTTP-ok poll response with job status "failed" and a reason. -/
def failedResponse (reason : String) : PollResponse :=
  { ok := true, httpStatus := 200, bodyText := "", status := "failed",
    url := "", errorMessage := reason }

/-- The mocked pending→pending→completed status sequence. -/
def demoPolls : Nat → PollResponse :=
  fun n => if n < 2 then pendingResponse else completedResponse

/-- A status sequence with two distinct "failed" responses. -/
def c2Polls : Nat → PollResponse :=
  fun n => if n = 0 then failedResponse "first reason"
           else failedResponse "second reason"

/-- A status sequence that is "pending" forever. -/
def alwaysPending : Nat → PollResponse :=
  fun _ => pendingResponse

/-- C1: when every poll response before the k-th is HTTP-ok with a status
other than "completed" and "failed", and the k-th is HTTP-ok with status
"completed" carrying a url, the polling loop terminates (after k+1 polls) and
the tool's content string contains exactly that service-provided url. -/
theorem createVideo_completed_returns_url (script : String)
    (submit : SubmitResponse) (polls : Nat → PollResponse) (k : Nat)
    (hsub : submit.ok = true) (hpend : ∀ j < k, pendingAt polls j)
    (hok : (polls k).ok = true) (hc : (polls k).status = "completed") :
    createVideo script submit polls (k + 1) =
      some (Except.ok ("url for the video is! " ++ (polls k).url, ⟨"123"⟩)) ∧
    strContains ("url for the video is! " ++ (polls k).url) ((polls k).url) := by
  constructor
  · simp [createVideo, hsub, pollLoop_completed k polls hpend hok hc]
  · exact ⟨"url for the video is! ", "", by simp⟩

theorem createVideo_completed_returns_url_witness :
    createVideo "s" goodSubmit demoPolls 3 =
      some (Except.ok ("url for the video is! " ++ (demoPolls 2).url, ⟨"123"⟩)) ∧
    strContains ("url for the video is! " ++ (demoPolls 2).url)
      ((demoPolls 2).url) :=
  createVideo_completed_returns_url "s" goodSubmit demoPolls 2 rfl
    (by decide) (by decide) (by decide)

/-- C2 counterexample: the status sequence failed("first reason"),
failed("second reason"). The response at index 1 has status "failed" with
errorMessage "second reason" and no earlier response has status "completed",
yet the error the code raises is the one for index 0, whose message does not
contain "second reason". -/
theorem c2Polls_second_failed_not_reported :
    (c2Polls 1).status = "failed" ∧
    (c2Polls 1).errorMessage = "second reason" ∧
    (c2Polls 0).status ≠ "completed" ∧
    createVideo "s" goodSubmit c2Polls 1 =
      some (Except.error (failedMsg (c2Polls 0))) ∧
    ¬ strContains (failedMsg (c2Polls 0)) "second reason" := by
  refine ⟨by decide, by decide, by decide, rfl, fun h => ?_⟩
  have hmem := strContains_mem _ _ h 'c' (by decide)
  revert hmem
  decide

/-- C2 amended: when the first poll response that is not HTTP-ok-and-pending
is HTTP-ok with status "failed", the tool raises an error whose message
contains that response's errorMessage, and no amount of fuel makes it return
a url. -/
theorem createVideo_first_failed_raises (script : String)
    (submit : SubmitResponse) (polls : Nat → PollResponse) (k : Nat)
    (hsub : submit.ok = true) (hpend : ∀ j < k, pendingAt polls j)
    (hok : (polls k).ok = true) (hf : (polls k).status = "failed") :
    (∃ fuel msg, createVideo script submit polls fuel =
        some (Except.error msg) ∧
      strContains msg ((polls k).errorMessage)) ∧
    (∀ fuel u a, createVideo script submit polls fuel ≠
        some (Except.ok (u, a))) := by
  constructor
  · refine ⟨k + 1, failedMsg (polls k), ?_, ?_⟩
    · simp [createVideo, hsub, pollLoop_failed k polls hpend hok hf]
    · exact ⟨"Failed to render video! Reason: ", "", by simp [failedMsg]⟩
  · intro fuel u a h
    rw [createVideo] at h
    simp only [hsub] at h
    cases hp : pollLoop polls fuel with
    | none => rw [hp] at h; simp at h
    | some r =>
      cases r with
      | error e => rw [hp] at h; simp at h
      | ok url =>
        obtain ⟨k2, hpend2, hok2, hc2, _⟩ := pollLoop_ok_inv fuel polls url hp
        rcases Nat.lt_trichotomy k2 k with hlt | rfl | hgt
        · exact (hpend k2 hlt).2.1 hc2
        · rw [hc2] at hf; exact absurd hf (by decide)
        · exact (hpend2 k hgt).2.2 hf

theorem createVideo_first_failed_raises_witness :
    (∃ fuel msg, createVideo "s" goodSubmit c2Polls fuel =
        some (Except.error msg) ∧
      strContains msg ((c2Polls 0).errorMessage)) ∧
    (∀ fuel u a, createVideo "s" goodSubmit c2Polls fuel ≠
        some (Except.ok (u, a))) :=
  createVideo_first_failed_raises "s" goodSubmit c2Polls 0 rfl
    (fun j hj => absurd hj (Nat.not_lt_zero j)) (by decide) (by decide)

/-- C3: when every poll response is HTTP-ok with a status other than
"completed" and "failed", the polling loop never exits: for every fuel bound
the run is still in the loop (no iteration cap or timeout exists in the
code). -/
theorem createVideo_pending_never_terminates (script : String)
    (submit : SubmitResponse) (polls : Nat → PollResponse)
    (hsub : submit.ok = true) (hpend : ∀ j, pendingAt polls j) :
    ∀ fuel, createVideo script submit polls fuel = none := by
  intro fuel
  simp [createVideo, hsub, pollLoop_pending_none fuel polls hpend]

theorem createVideo_pending_never_terminates_witness :
    createVideo "s" goodSubmit alwaysPending 7 = none :=
  createVideo_pending_never_terminates "s" goodSubmit alwaysPending rfl
    (by intro j
        exact ⟨rfl, show pendingResponse.status ≠ "completed" by decide,
          show pendingResponse.status ≠ "failed" by decide⟩) 7

/-- C7: the error characterization of `createVideo`. Forward: every raised
error comes from a non-ok submission (with the submission message), or — with
an ok submission — from the first poll that stops the loop, which is either
non-ok (HTTP-polling message, carrying status code and body text) or carries
job status "failed" (failure message, carrying the reason). Backward: each of
those situations does raise exactly that error. Successful completion is the
only non-error exit. -/
theorem createVideo_error_characterization (script : String)
    (submit : SubmitResponse) (polls : Nat → PollResponse) :
    (∀ fuel msg, createVideo script submit polls fuel =
        some (Except.error msg) →
      (submit.ok = false ∧ msg = submitErrorMsg submit) ∨
      (submit.ok = true ∧ ∃ k, decidesError polls k msg)) ∧
    (submit.ok = false → ∀ fuel, createVideo script submit polls fuel =
      some (Except.error (submitErrorMsg submit))) ∧
    (submit.ok = true → ∀ k msg, decidesError polls k msg →
      createVideo script submit polls (k + 1) =
        some (Except.error msg)) := by
  refine ⟨?_, ?_, ?_⟩
  · intro fuel msg h
    by_cases hs : submit.ok = false
    · refine Or.inl ⟨hs, ?_⟩
      simp [createVideo, hs] at h
      exact h.symm
    · rw [Bool.not_eq_false] at hs
      refine Or.inr ⟨hs, ?_⟩
      rw [createVideo] at h
      simp only [hs] at h
      cases hp : pollLoop polls fuel with
      | none => rw [hp] at h; simp at h
      | some r =>
        cases r with
        | ok u => rw [hp] at h; simp at h
        | error e =>
          rw [hp] at h
          simp at h
          rw [← h]
          exact pollLoop_error_inv fuel polls e hp
  · intro hs fuel
    simp [createVideo, hs]
  · intro hs k msg hdec
    obtain ⟨hpend, hcase⟩ := hdec
    rcases hcase with ⟨hbad, rfl⟩ | ⟨hok, hf, rfl⟩
    · simp [createVideo, hs, pollLoop_http_error k polls hpend hbad]
    · simp [createVideo, hs, pollLoop_failed k polls hpend hok hf]

theorem createVideo_error_characterization_witness :
    createVideo "s" badSubmit demoPolls 0 =
      some (Except.error (submitErrorMsg badSubmit)) :=
  ((createVideo_error_characterization "s" badSubmit demoPolls).2.1 rfl) 0

/-- The last message of the state exists, is read as an `AIMessage`, and its
`tool_calls` array is present and nonempty. -/
def lastHasToolCalls (msgs : List Message) : Prop :=
  ∃ m tc, msgs.getLast? = some m ∧ m.tool_calls = some tc ∧ tc ≠ []

theorem lastToolCallsLen_ne_zero (msgs : List Message) :
    lastToolCallsLen msgs ≠ 0 ↔ lastHasToolCalls msgs := by
  unfold lastToolCallsLen lastHasToolCalls
  cases hl : msgs.getLast? with
  | none => simp
  | some m =>
    cases htc : m.tool_calls with
    | none => simp [htc]
    | some tc => simp [htc, List.length_eq_zero]

/-- C4: `routeModelOutput` returns the "tools" branch exactly when the last
message of the state carries one or more tool calls, and the terminal branch
`END` in every other case. -/
theorem routeModelOutput_tools_iff (msgs : List Message) :
    (routeModelOutput msgs = "tools" ↔ lastHasToolCalls msgs) ∧
    (¬ lastHasToolCalls msgs → routeModelOutput msgs = END) := by
  constructor
  · unfold routeModelOutput
    by_cases hne : lastToolCallsLen msgs ≠ 0
    · rw [if_pos (Or.inl hne)]
      simp only [true_iff]
      exact (lastToolCallsLen_ne_zero msgs).mp hne
    · rw [if_neg (by simp at hne ⊢; exact hne)]
      constructor
      · intro h
        exact absurd h (by decide)
      · intro h
        exact absurd ((lastToolCallsLen_ne_zero msgs).mpr h) hne
  · intro h
    unfold routeModelOutput
    rw [if_neg]
    simp only [not_or]
    exact ⟨fun hne => h ((lastToolCallsLen_ne_zero msgs).mp hne), by decide⟩

/-- An assistant message requesting one tool call. -/
def toolCallMsg : Message :=
  { role := "assistant", content := "",
    tool_calls := some [{ name := "create_video", args := "script" }] }

/-- A tool-result message: no `tool_calls` field. -/
def toolResultMsg : Message :=
  { role := "tool", content := "Real Madrid", tool_calls := none }

theorem routeModelOutput_tools_iff_witness :
    routeModelOutput [toolCallMsg] = "tools" :=
  (routeModelOutput_tools_iff [toolCallMsg]).1.mpr
    ⟨toolCallMsg, [{ name := "create_video", args := "script" }], rfl, rfl,
      List.cons_ne_nil _ _⟩

/-- C10: the routing function is total: on an empty message list, and on a
last message without a `tool_calls` field (a user or tool message), it
returns `END` rather than throwing — the optional chaining makes every stage
of `(lastMessage as AIMessage)?.tool_calls?.length` defined — and on every
state it returns one of the two branches. -/
theorem routeModelOutput_total :
    routeModelOutput [] = END ∧
    (∀ (msgs : List Message) (m : Message), msgs.getLast? = some m →
      m.tool_calls = none → routeModelOutput msgs = END) ∧
    (∀ msgs : List Message, routeModelOutput msgs = "tools" ∨
      routeModelOutput msgs = END) := by
  refine ⟨rfl, ?_, ?_⟩
  · intro msgs m hl htc
    unfold routeModelOutput
    rw [if_neg]
    simp [lastToolCallsLen, hl, htc]
  · intro msgs
    unfold routeModelOutput
    by_cases hc : lastToolCallsLen msgs ≠ 0 ∨ 0 > 0
    · exact Or.inl (if_pos hc)
    · exact Or.inr (if_neg hc)

theorem routeModelOutput_total_witness :
    routeModelOutput [toolResultMsg] = END :=
  routeModelOutput_total.2.1 [toolResultMsg] toolResultMsg rfl rfl

/-- C5: for every script and base url, the submitted render body is exactly
the fixed-shape object — aspectRatio "1/1", withCaption false, brainrot
false, one scene with the script as text, the image background reference, the
fixed voice id, includeOutro true and the fixed model configuration — and two
payloads built from the same base url differ at most in the scene text, i.e.
only the script varies with the input. -/
theorem renderPayload_fixed_shape (baseUrl script : String) :
    (renderPayload baseUrl script).aspectRatio = "1/1" ∧
    (renderPayload baseUrl script).withCaption = false ∧
    (renderPayload baseUrl script).brainrot = false ∧
    (renderPayload baseUrl script).scenes.map Scene.text = [script] ∧
    (renderPayload baseUrl script).scenes.map Scene.background =
      [{ type := "image", source := baseUrl ++ "/images/neon.png" }] ∧
    (renderPayload baseUrl script).scenes.map Scene.voiceId =
      ["GVG9vYrd7AzWuz0Aw0ZJ"] ∧
    (renderPayload baseUrl script).scenes.map Scene.includeOutro = [true] ∧
    (renderPayload baseUrl script).scenes.map Scene.modelConfig =
      [{ id := "ava", scale := 0.2, x := none, y := -75 }] ∧
    ∀ script2 : String, renderPayload baseUrl script2 =
      { renderPayload baseUrl script with
        scenes := (renderPayload baseUrl script).scenes.map
          (fun sc => { sc with text := script2 }) } :=
  ⟨rfl, rfl, rfl, rfl, rfl, rfl, rfl, rfl, fun _ => rfl⟩

/-- C6 counterexample: it is not the case that every declared ability is in
the `TOOLS` list bound to the model: `sendTweet` is declared (line 143) but
absent from `TOOLS` (line 265). -/
theorem declaredAbilities_not_all_bound :
    ¬ (∀ t ∈ declaredAbilities, t ∈ TOOLS) := by
  decide

/-- C6 amended: the handler declares three abilities, but the `TOOLS` list
bound to the chat model in `callModel` and executed by the tools node holds
only two of them — internet search and video creation; the tweet-posting
ability is declared yet not bound. -/
theorem TOOLS_binds_search_and_video :
    declaredAbilities = [AbilityName.search_internet, AbilityName.send_tweet,
      AbilityName.create_video] ∧
    TOOLS = [AbilityName.search_internet, AbilityName.create_video] ∧
    AbilityName.search_internet ∈ TOOLS ∧
    AbilityName.create_video ∈ TOOLS ∧
    AbilityName.send_tweet ∈ declaredAbilities ∧
    AbilityName.send_tweet ∉ TOOLS := by
  decide

/-- C8: the `/tools` handler starts the graph with exactly one user message
whose content is the fixed objective, and whenever the graph loop terminates,
the final state it sends as the HTTP response carries the full accumulated
history: the initial user message followed by every model response and every
tool-result batch, in generation order (`genHistory`). -/
theorem toolsRun_full_history :
    initialMessages =
      [{ role := "user", content := objective, tool_calls := none }] ∧
    ∀ (model : List Message → Message)
      (toolNode : List Message → List Message) (fuel : Nat)
      (final : List Message),
      runGraph model toolNode fuel initialMessages = some final →
      ∃ gen, genHistory model toolNode fuel initialMessages = some gen ∧
        final = initialMessages ++ gen :=
  ⟨rfl, fun model toolNode fuel final h =>
    runGraph_genHistory model toolNode fuel initialMessages final h⟩

/-- A model oracle that answers without tool calls. -/
def demoModelMsg : Message :=
  { role := "assistant", content := "Done.", tool_calls := none }

/-- A model oracle returning a fixed final answer. -/
def demoModel : List Message → Message :=
  fun _ => demoModelMsg

/-- A tool-node oracle returning no messages. -/
def demoToolNode : List Message → List Message :=
  fun _ => []

theorem toolsRun_full_history_witness :
    ∃ gen, genHistory demoModel demoToolNode 1 initialMessages = some gen ∧
      initialMessages ++ [demoModelMsg] = initialMessages ++ gen :=
  toolsRun_full_history.2 demoModel demoToolNode 1
    (initialMessages ++ [demoModelMsg]) rfl

/-- C9: both graph nodes are append-only on the message history: for every
state, the update `callModel` returns is the input messages extended by the
model response, and the update `callTool` returns is the input messages
extended by the tool-result messages — the input list is a prefix of the
output, nothing is dropped or reordered, so the replacement-style channel
still accumulates the history. -/
theorem nodes_append_only (model : List Message → Message)
    (toolNode : List Message → List Message) (msgs : List Message) :
    callModel model msgs = msgs ++ [model (systemMessage :: msgs)] ∧
    callTool toolNode msgs = msgs ++ toolNode msgs ∧
    (∃ s, callModel model msgs = msgs ++ s) ∧
    (∃ s, callTool toolNode msgs = msgs ++ s) :=
  ⟨rfl, rfl, ⟨[model (systemMessage :: msgs)], rfl⟩, ⟨toolNode msgs, rfl⟩⟩
